import Mathlib

/-!
Verification development for the livebox-api-client repository.

This file gives a shallow embedding, in Lean 4, of the session lifecycle,
authenticated-request retry protocol, event subscription loop and keepalive
reference counting of the Go client, together with theorems settling the
frozen claims about them.

Conventions of the embedding:
- Go strings are Lean `String`s; the Go standard-library string helpers used
  by the source (`strings.Contains`, `strings.Replace(s, old, new, 1)`,
  `strings.Split`, `strings.Cut`, `bytes.TrimSuffix`, `textproto.TrimString`)
  are re-implemented below on `List Char` with `go`-prefixed names.
- Go errors are the inductive `GoErr`; `nil` errors are `Option.none` or the
  `Except.ok` branch.
- Network I/O is passed in explicitly: a call's HTTP response (or transport
  failure) is a value of `Except GoErr HttpResp`, and a sequence of exchanges
  is a list of such values consumed in order. JSON encoding and decoding of
  payloads is kept abstract (parameters `parse` / `decodeOut`), except for the
  error envelope whose decoded shape is the inductive `Body` below.
- Execution is sequential: a single logical task runs the dispatcher, so the
  session store is mutated only by the modelled code itself. Mutex acquisition
  and release become pure state threading.
-/

/-! ## Go string helpers (`List Char` level) -/

/-- First match of pattern `pat` in `s`: returns the part before the match and
the part after it. `none` when `pat` does not occur in `s`. Helper for the
models of `strings.Contains` and `strings.Replace(s, old, new, 1)`. -/
def goSplitFirst (pat : List Char) : List Char → Option (List Char × List Char)
  | [] => if pat = [] then some ([], []) else none
  | c :: t =>
    if pat.isPrefixOf (c :: t) then some ([], (c :: t).drop pat.length)
    else match goSplitFirst pat t with
      | some (pre, post) => some (c :: pre, post)
      | none => none

/-- Model of Go `strings.Contains(s, pat)`. -/
def goContains (s pat : List Char) : Bool :=
  (goSplitFirst pat s).isSome

/-- Model of Go `strings.Replace(s, old, new, 1)`: replaces the first
occurrence of `old` (if any) by `nw`. -/
def goReplaceFirst (s old nw : List Char) : List Char :=
  match goSplitFirst old s with
  | some (pre, post) => pre ++ nw ++ post
  | none => s

/-- Model of Go `strings.Split(s, sep)` for a one-character separator:
splits on every occurrence, keeping empty parts (Go returns at least one
part). `acc` is the reversed current part. -/
def goSplitChAux (sep : Char) : List Char → List Char → List (List Char)
  | [], acc => [acc.reverse]
  | c :: t, acc =>
    if c = sep then acc.reverse :: goSplitChAux sep t []
    else goSplitChAux sep t (c :: acc)

/-- Model of Go `strings.Split(s, sep)` for a one-character separator. -/
def goSplitCh (sep : Char) (s : List Char) : List (List Char) :=
  goSplitChAux sep s []

/-- Model of Go `strings.Cut(s, sep)` for a one-character separator: the part
before the first occurrence and the part after it, `none` if absent. -/
def goCut (sep : Char) : List Char → Option (List Char × List Char)
  | [] => none
  | c :: t =>
    if c = sep then some ([], t)
    else match goCut sep t with
      | some (pre, post) => some (c :: pre, post)
      | none => none

/-- ASCII space per Go `textproto.TrimString` (space, tab, CR, LF). -/
def isAsciiSpace (c : Char) : Bool :=
  c = ' ' || c = '\t' || c = '\n' || c = '\r'

/-- Model of Go `textproto.TrimString`: strips leading and trailing ASCII
space. -/
def goTrimAscii (s : List Char) : List Char :=
  ((s.dropWhile isAsciiSpace).reverse.dropWhile isAsciiSpace).reverse

/-- Model of Go `bytes.TrimSuffix(b, suffix)`: removes one trailing copy of
`suffix` when present, otherwise returns `b` unchanged. -/
def goTrimSuffix (s suffix : List Char) : List Char :=
  if suffix.isSuffixOf s then s.take (s.length - suffix.length) else s

/-! ## Error model (`api/response` package, current variant with
`errorMatches`) -/

/-- One entry of the error envelope: `response.Error` with fields
`error`, `description`, `info`. -/
structure ApiError where
  errorCode : Int
  description : String
  info : String
deriving DecidableEq, Repr

/-- `response.PermissionDeniedErrorCode = 13`. -/
def PermissionDeniedErrorCode : Int := 13

/-- Go error values produced by the client, as an inductive:
`appErrors` is `*response.Errors` (aggregate envelope), `appError` is
`*response.Error` (single envelope entry), `statusError` is the non-200
status failure carrying the received code, `transport` is a network error
from the underlying HTTP client, and the remaining constructors are the
named sentinel errors of the source. `unmarshal` stands for a JSON decoding
failure. -/
inductive GoErr where
  | appErrors (es : List ApiError)
  | appError (e : ApiError)
  | statusError (got : Nat)
  | transport (msg : String)
  | invalidCredentials
  | invalidPassword
  | emptyContextID
  | emptySessidCookie
  | sessionNotInitialized
  | unmarshal (msg : String)
deriving DecidableEq, Repr

/-- `response.errorMatches`: true when the error is an aggregate envelope one
of whose entries satisfies `f`, or a single envelope entry satisfying `f`;
false for every other kind of error. -/
def errorMatches (err : GoErr) (f : ApiError → Bool) : Bool :=
  match err with
  | .appErrors es => es.any f
  | .appError e => f e
  | _ => false

/-- `response.IsPermissionDeniedError`. -/
def IsPermissionDeniedError (err : GoErr) : Bool :=
  errorMatches err (fun e => e.errorCode = PermissionDeniedErrorCode)

/-- `response.IsChannelDoesNotExistError`. -/
def IsChannelDoesNotExistError (err : GoErr) : Bool :=
  errorMatches err (fun e => e.info = "channel does not exist")

/-- `response.IsFunctionExecutionFailedError`. -/
def IsFunctionExecutionFailedError (err : GoErr) : Bool :=
  errorMatches err (fun e => e.description = "Function execution failed")

/-! ## Cookie parsing (`net/http` readSetCookies, restricted to the
name/value pair, which is all the source uses) -/

/-- A cookie, restricted to the fields the client reads (`Name`, `Value`). -/
structure Cookie where
  name : String
  value : String
deriving DecidableEq, Repr

/-- RFC 2616 token characters as accepted by Go `net/http`
`isCookieNameValid` (letters, digits and the listed punctuation; `/` is not
one of them). -/
def isTokenChar (c : Char) : Bool :=
  c.isAlphanum ||
    [0x21, 0x23, 0x24, 0x25, 0x26, 0x27, 0x2a, 0x2b, 0x2d, 0x2e,
      0x5e, 0x5f, 0x60, 0x7c, 0x7e].contains c.toNat

/-- Go `net/http` `isCookieNameValid`: non-empty and all token characters. -/
def isCookieNameValid (raw : List Char) : Bool :=
  raw ≠ [] && raw.all isTokenChar

/-- Go `net/http` `validCookieValueByte`. -/
def validCookieValueByte (c : Char) : Bool :=
  0x20 ≤ c.toNat && c.toNat < 0x7f && c ≠ '\"' && c ≠ ';' && c ≠ '\\'

/-- Go `net/http` `parseCookieValue` with `allowDoubleQuote = true`:
strips one pair of surrounding double quotes, then requires every byte to be
a valid cookie-value byte. -/
def parseCookieValue (raw : List Char) : Option (List Char) :=
  let raw' :=
    if raw.length > 1 && raw.head? = some '\"' && raw.getLast? = some '\"'
    then (raw.drop 1).dropLast else raw
  if raw'.all validCookieValueByte then some raw' else none

/-- One line of Go `net/http` `readSetCookies`: trim the line, split on `;`,
take the first part, trim it, cut at the first `=`, validate the name and
parse the value. Attribute parts after the first `;` are ignored (the client
only ever reads `Name` and `Value`). Yields at most one cookie per
`Set-Cookie` line, as Go does. -/
def readSetCookieLine (line : List Char) : Option Cookie :=
  let parts := goSplitCh ';' (goTrimAscii line)
  match parts with
  | [] => none
  | p0 :: _ =>
    if parts.length = 1 && p0 = [] then none
    else
      let p0' := goTrimAscii p0
      if p0' = [] then none
      else match goCut '=' p0' with
        | none => none
        | some (name, value) =>
          let name := goTrimAscii name
          if isCookieNameValid name then
            match parseCookieValue value with
            | some v => some ⟨⟨name⟩, ⟨v⟩⟩
            | none => none
          else none

/-- Go `net/http` `readSetCookies` over the list of raw `Set-Cookie` header
values, keeping parse order. -/
def readSetCookies (headers : List String) : List Cookie :=
  headers.filterMap (fun h => readSetCookieLine h.data)

/-- `sessidCookieNameSuffix` constant of the source. -/
def sessidCookieNameSuffix : String := "/sessid"

/-- `patchedSessidCookieNameSuffix` constant of the source. -/
def patchedSessidCookieNameSuffix : String := "_sessid"

/-- The patch loop of `findSessidCookie`: rewrite the first `Set-Cookie`
header value containing `"/sessid"`, replacing its first occurrence by
`"_sessid"`, and stop (`break`) there. -/
def patchSetCookieHeaders : List String → List String
  | [] => []
  | h :: t =>
    if goContains h.data sessidCookieNameSuffix.data then
      (⟨goReplaceFirst h.data sessidCookieNameSuffix.data
          patchedSessidCookieNameSuffix.data⟩ : String) :: t
    else h :: patchSetCookieHeaders t

/-- The search loop of `findSessidCookie`: the first parsed cookie whose name
ends with `"_sessid"`, with the first occurrence of `"_sessid"` in its name
restored to `"/sessid"`. -/
def findPatchedCookie : List Cookie → Option Cookie
  | [] => none
  | ck :: t =>
    if patchedSessidCookieNameSuffix.data.isSuffixOf ck.name.data then
      some ⟨⟨goReplaceFirst ck.name.data patchedSessidCookieNameSuffix.data
        sessidCookieNameSuffix.data⟩, ck.value⟩
    else findPatchedCookie t

/-- `findSessidCookie` (identical in both historical variants of the source):
patch the raw `Set-Cookie` values, parse them, locate the placeholder-named
cookie and restore its name. `none` models the `(nil, false)` return that the
callers turn into `ErrEmptySessidCookie`. -/
def findSessidCookie (setCookieHeaders : List String) : Option Cookie :=
  findPatchedCookie (readSetCookies (patchSetCookieHeaders setCookieHeaders))

/-! ## Error envelope decoding (`handleRequestError`, part of the current
client in `internal/client`) -/

/-- Abstraction of a decoded response body for error-envelope purposes,
classified by which of `handleRequestError`'s sequential decode attempts
fires on the raw JSON:
- `clean`: the body does not contain the literal substring `"error"`
  (note that a bare `errors` key does not contain it), so the early exit
  returns nil;
- `single e`: the body contains `"error"` and unmarshals as the
  single-object form `response.Error` into `e` (a body whose fields are all
  zero also unmarshals as an empty aggregate, which the definition below
  reproduces);
- `multi es`: the body contains `"error"`, unmarshals as a zero-valued
  single-object form, and unmarshals as the aggregate form
  `response.Errors` into `es`. -/
inductive Body where
  | clean
  | single (e : ApiError)
  | multi (es : List ApiError)
deriving DecidableEq, Repr

/-- `handleRequestError` of the current client: early exit when the body has
no `"error"` substring; else return the single-object error if any of its
three fields is non-zero; else return the whole aggregate envelope if it is
non-empty; else nil. -/
def handleRequestError : Body → Option GoErr
  | .clean => none
  | .single e =>
    if e.errorCode ≠ 0 ∨ e.description ≠ "" ∨ e.info ≠ "" then
      some (.appError e)
    else none
  | .multi es => if es.length > 0 then some (.appErrors es) else none

/-! ## HTTP request and response model -/

/-- Go `textproto.CanonicalMIMEHeaderKey` for valid keys: first letter of
each dash-separated run uppercased, the rest lowercased. (All header keys
set by the source are valid, so the invalid-key early exit is omitted.) -/
def canonicalKeyAux : Bool → List Char → List Char
  | _, [] => []
  | upper, c :: t =>
    if c = '-' then '-' :: canonicalKeyAux true t
    else (if upper then c.toUpper else c.toLower) :: canonicalKeyAux false t

/-- Canonical MIME header key, as applied by Go `Header.Set` / `Header.Add`. -/
def canonicalKey (s : String) : String :=
  ⟨canonicalKeyAux true s.data⟩

/-- An HTTP request as built by the client: method and URL are fixed by
`newRequest` (POST to the `ws` endpoint), so only the headers are modelled.
`Header.Set` replaces, `Header.Add` appends; both canonicalize the key. -/
structure HttpRequest where
  headers : List (String × String)
deriving DecidableEq, Repr

/-- Go `Header.Set`: canonicalize the key and replace any previous value. -/
def headerSet (r : HttpRequest) (key value : String) : HttpRequest :=
  ⟨(r.headers.filter (fun kv => kv.1 ≠ canonicalKey key)) ++
    [(canonicalKey key, value)]⟩

/-- Go `Header.Add`: canonicalize the key and append the value. -/
def headerAdd (r : HttpRequest) (key value : String) : HttpRequest :=
  ⟨r.headers ++ [(canonicalKey key, value)]⟩

/-- First value of a header, by canonical key (Go `Header.Get`). -/
def headerGet (r : HttpRequest) (key : String) : Option String :=
  (r.headers.find? (fun kv => kv.1 = canonicalKey key)).map Prod.snd

/-- An HTTP response as seen by `doRequest`: status code, raw `Set-Cookie`
header values, and the raw body (a string of bytes). -/
structure HttpResp where
  statusCode : Nat
  setCookies : List String
  body : String
deriving DecidableEq, Repr

/-- `ContentTypeWS` constant. -/
def ContentTypeWS : String := "application/x-sah-ws-4-call+json"

/-- `ContentTypeEvent` constant. -/
def ContentTypeEvent : String := "application/x-sah-event-4-call+json"

/-- `authorizationHeaderLogin` constant. -/
def authorizationHeaderLogin : String := "X-Sah-Login"

/-- `newRequest` of the current client (`internal/client`): sets the
Content-Type, then — for any authorization value other than the login
sentinel — sets the `x-context` header to element 1 of the authorization
split on a space (the Go code indexes `strings.Split(authorization, " ")[1]`
unconditionally, so `none` here models the index-out-of-range panic when the
authorization value contains no space); for the login sentinel it sets the
`Authorization` header instead. -/
def newRequest (contentType : String) (authorization : String) :
    Option HttpRequest :=
  let base := headerSet ⟨[]⟩ "Content-Type" contentType
  if authorization ≠ authorizationHeaderLogin then
    match (goSplitCh ' ' authorization.data)[1]? with
    | some tok => some (headerSet base "x-context" (⟨tok⟩ : String))
    | none => none
  else some (headerSet base "Authorization" authorization)

/-! ## Session store of the current client (`internal/client/session.go`) -/

/-- The `session` struct of `internal/client`: contextID, sessid cookie and
version. The Go `sessid` field is a nullable pointer whose nil value is
modelled by the zero cookie; the only states the exported API can reach with
`version > 0` went through `SetCredentials`, which sets a real cookie, so the
nil dereference Go would perform on an impossible state never arises. -/
structure ISession where
  contextID : String
  sessid : Cookie
  version : Nat
deriving DecidableEq, Repr

/-- `session.GetCredentials`: empty credentials at version 0, otherwise the
`X-Sah `-prefixed token, the raw `name=value` cookie string, and the
version. -/
def GetCredentials (s : ISession) : String × String × Nat :=
  if s.version = 0 then ("", "", 0)
  else ("X-Sah " ++ s.contextID, s.sessid.name ++ "=" ++ s.sessid.value,
    s.version)

/-- `session.SetCredentials`: store both artifacts and bump the version. -/
def SetCredentials (s : ISession) (contextID : String) (sessid : Cookie) :
    ISession :=
  { contextID := contextID, sessid := sessid, version := s.version + 1 }

/-- `Client.newAuthenticatedRequest`: read a credentials snapshot, build the
request from its authorization value, add the raw `Cookie` header, and
return the snapshot's version alongside. -/
def newAuthenticatedRequest (s : ISession) (contentType : String) :
    Option (HttpRequest × Nat) :=
  (newRequest contentType (GetCredentials s).1).map
    (fun r => (headerAdd r "Cookie" (GetCredentials s).2.1,
      (GetCredentials s).2.2))

/-! ## Response processing (`Client.doRequest`) -/

/-- `Client.doRequest`, given the outcome of `http.Client.Do` as
`Except GoErr HttpResp` and abstract JSON decoders: `parse` classifies the
(trimmed) body for the error envelope, `decodeOut` decodes it into the
caller's `out` value (`none` models a JSON unmarshal failure). The request
argument is the built HTTP request; the Go function only sends it, so the
processing of the response never inspects it. Steps, in source order:
transport error returned as-is; non-200 status mapped to the status error;
trailing `"null"` trimmed once; error envelope inspected; body decoded. -/
def doRequest (parse : String → Body) (decodeOut : String → Option String)
    (_req : HttpRequest) (outcome : Except GoErr HttpResp) :
    Except GoErr String :=
  match outcome with
  | .error e => .error e
  | .ok res =>
    if res.statusCode ≠ 200 then .error (.statusError res.statusCode)
    else
      let b : String := ⟨goTrimSuffix res.body.data "null".data⟩
      match handleRequestError (parse b) with
      | some e => .error e
      | none =>
        match decodeOut b with
        | some out => .ok out
        | none => .error (.unmarshal b)

/-! ## Authentication (`Client.authenticate` of the current client) -/

/-- The network side of one login exchange, as returned by `doRequest` on the
login request: either a failure (`fail e`, with the 401 status already
represented as `.statusError 401`), or a successful decode of the login body
giving the received `contextID` together with the raw `Set-Cookie` header
values of the response. -/
inductive LoginOutcome where
  | fail (e : GoErr)
  | success (contextID : String) (setCookies : List String)
deriving DecidableEq, Repr

/-- `Client.authenticate(ctx, currentVersion)`: under the client mutex,
re-read the credentials and return `(false, nil)` when the version moved
since the caller read `currentVersion`; otherwise perform the login exchange:
a `401` status error becomes `ErrInvalidCredentials`, any other failure is
returned as-is; an empty contextID is `ErrEmptyContextID`; a missing sessid
cookie is `ErrEmptySessidCookie`; on success the credentials are stored and
the version bumped. Returns (attempted flag, error, resulting session). -/
def authenticate (s : ISession) (currentVersion : Nat) (lo : LoginOutcome) :
    Bool × Except GoErr Unit × ISession :=
  if (GetCredentials s).2.2 ≠ currentVersion then (false, .ok (), s)
  else
    match lo with
    | .fail e =>
      if e = .statusError 401 then (true, .error .invalidCredentials, s)
      else (true, .error e, s)
    | .success contextID setCookies =>
      if contextID = "" then (true, .error .emptyContextID, s)
      else
        match findSessidCookie setCookies with
        | none => (true, .error .emptySessidCookie, s)
        | some ck => (true, .ok (), SetCredentials s contextID ck)

/-! ## The request dispatcher (`Client.Request` of the current client),
sequential execution -/

/-- The trace of one `Client.Request` call: for every send of the marshaled
payload, the payload together with the `(authorization, cookie, version)`
credentials snapshot it carried; the number of successful session renewals
performed; and the call's result. -/
structure ReqTrace where
  sends : List (String × String × String × Nat)
  renewals : Nat
  result : Except GoErr Unit
deriving Repr

/-- The retry loop of `Client.Request`. `payload` is the marshaled request
body (marshaled once, before the loop). `logins` and `resps` are the
environment: successive login exchanges and successive HTTP outcomes of
sending the payload. An exhausted environment list is modelled as a transport
failure (the server stopped answering). The outer `Option` is `none` exactly
when `newAuthenticatedRequest` would panic (authorization value without a
space), which is unreachable from `Request`. Each iteration consumes one
element of `resps`, mirroring one send. -/
def requestLoop (parse : String → Body) (decodeOut : String → Option String)
    (contentType : String) (payload : String) :
    ISession → Bool → Nat → List (String × String × String × Nat) →
    List LoginOutcome → List (Except GoErr HttpResp) → Option ReqTrace
  | s, _, renewals, sends, _, [] =>
    match newAuthenticatedRequest s contentType with
    | none => none
    | some rv =>
      some ⟨sends ++ [(payload, (GetCredentials s).1, (GetCredentials s).2.1,
        rv.2)], renewals, .error (.transport "no response")⟩
  | s, authAttempted, renewals, sends, logins, r :: rest =>
    match newAuthenticatedRequest s contentType with
    | none => none
    | some rv =>
      let sends' := sends ++ [(payload, (GetCredentials s).1,
        (GetCredentials s).2.1, rv.2)]
      match doRequest parse decodeOut rv.1 r with
      | .ok _ => some ⟨sends', renewals, .ok ()⟩
      | .error e =>
        if authAttempted then some ⟨sends', renewals, .error e⟩
        else if IsPermissionDeniedError e then
          match logins with
          | [] => some ⟨sends', renewals, .error (.transport "no login")⟩
          | lo :: lrest =>
            let ar := authenticate s rv.2 lo
            match ar.2.1 with
            | .error e2 => some ⟨sends', renewals, .error e2⟩
            | .ok _ =>
              requestLoop parse decodeOut contentType payload ar.2.2 ar.1
                (renewals + (if ar.2.2.version = s.version then 0 else 1))
                sends' lrest rest
        else some ⟨sends', renewals, .error e⟩

/-- `Client.Request(ctx, contentType, in, out)`: authenticate first when the
stored version is 0 (renew condition: version still 0), propagating a login
failure; then marshal the payload once and run the bounded retry loop. -/
def Request (parse : String → Body) (decodeOut : String → Option String)
    (contentType : String) (payload : String) (s0 : ISession)
    (logins : List LoginOutcome) (resps : List (Except GoErr HttpResp)) :
    Option ReqTrace :=
  if (GetCredentials s0).2.2 = 0 then
    match logins with
    | [] => some ⟨[], 0, .error (.transport "no login")⟩
    | lo :: lrest =>
      let ar := authenticate s0 0 lo
      match ar.2.1 with
      | .error e => some ⟨[], 0, .error e⟩
      | .ok _ =>
        requestLoop parse decodeOut contentType payload ar.2.2 false
          (if ar.2.2.version = s0.version then 0 else 1) [] lrest resps
  else requestLoop parse decodeOut contentType payload s0 false 0 [] logins
    resps

/-! ## The older session store (`session` of the root package, with `Renew`
and `NewAuthenticatedRequest`) -/

/-- The `session` struct of the root package: contextID, sessid cookie (the
nullable Go pointer modelled as `Option`) and version. -/
structure LbSession where
  contextID : String
  sessid : Option Cookie
  version : Nat
deriving DecidableEq, Repr

/-- `session.Renew(ctx, password, rc)`, with the network side of the login
exchange passed in as `exchange`. Under the exclusive lock: if the renew
condition is false, return `false` with no login call and no mutation; else
run the login: a `401` status failure becomes `ErrInvalidPassword`, other
failures propagate; empty contextID and missing sessid cookie become their
sentinel errors; on success store the pair and increment the version.
Returns (result, resulting session, whether the login exchange ran). -/
def Renew (s : LbSession) (rc : LbSession → Bool)
    (exchange : LoginOutcome) :
    Except GoErr Bool × LbSession × Bool :=
  if ¬ rc s then (.ok false, s, false)
  else
    match exchange with
    | .fail e =>
      if e = .statusError 401 then (.error .invalidPassword, s, true)
      else (.error e, s, true)
    | .success contextID setCookies =>
      if contextID = "" then (.error .emptyContextID, s, true)
      else
        match findSessidCookie setCookies with
        | none => (.error .emptySessidCookie, s, true)
        | some ck =>
          (.ok true,
            { contextID := contextID, sessid := some ck,
              version := s.version + 1 }, true)

/-- `renewIfNotInitialized` of the root package. -/
def renewIfNotInitialized (s : LbSession) : Bool :=
  s.version = 0

/-- `renewIfVersionIsCurrent` of the root package. -/
def renewIfVersionIsCurrent (version : Nat) (s : LbSession) : Bool :=
  version = s.version

/-- `newRequest` of the root package (older variant): fixed Content-Type and
a plain `Authorization` header carrying the given value. -/
def newRequestRoot (authorization : String) : HttpRequest :=
  headerSet (headerSet ⟨[]⟩ "Content-Type" ContentTypeWS) "Authorization"
    authorization

/-- `session.NewAuthenticatedRequest`: under the read lock, refuse with
`errSessionNotInitialized` when the version is 0; otherwise build the request
with `Authorization: X-Sah <contextID>` and the raw `Cookie` header, and
return it with the current version. The outer `Option` is `none` exactly on
the nil-cookie dereference Go would perform on a state with `version > 0`
and no stored cookie — unreachable through `Renew`. -/
def NewAuthenticatedRequest (s : LbSession) :
    Option (Except GoErr (HttpRequest × Nat)) :=
  if s.version = 0 then some (.error .sessionNotInitialized)
  else
    match s.sessid with
    | none => none
    | some ck =>
      some (.ok
        (headerAdd (newRequestRoot ("X-Sah " ++ s.contextID)) "Cookie"
          (ck.name ++ "=" ++ ck.value), s.version))

/-! ## Event listener (`events.go`) -/

/-- `response.EventData` (handler plus object), with the object's attribute
map carried as an association list. -/
structure EventData where
  handler : String
  reason : String
  attributes : List (String × String)
deriving DecidableEq, Repr

/-- `response.Events`: the poll response body. -/
structure EventsResp where
  channelid : Int
  events : List EventData
deriving DecidableEq, Repr

/-- One item delivered on the listener's channel (`response.Event`): either
an event or an error. -/
inductive EventItem where
  | ev (e : EventData)
  | err (e : GoErr)
deriving DecidableEq, Repr

/-- `Client.requestEvent`, with the dispatcher abstracted: each poll consumes
the next element of `rs` (the dispatcher outcome for that poll) and records
the channel id it sent. A stale-channel failure (channel does not exist, or
function execution failed) resets the channel id to 0 and retries
immediately without surfacing anything; any other failure, or a success,
returns. An exhausted outcome list is a transport failure. Returns (channel
ids sent, result, remaining outcomes). -/
def requestEvent (channelID : Int) :
    List (Except GoErr EventsResp) →
    List Int × Except GoErr EventsResp × List (Except GoErr EventsResp)
  | [] => ([channelID], .error (.transport "no response"), [])
  | r :: rest =>
    match r with
    | .ok evs => ([channelID], .ok evs, rest)
    | .error e =>
      if IsChannelDoesNotExistError e || IsFunctionExecutionFailedError e then
        let q := requestEvent 0 rest
        (channelID :: q.1, q.2.1, q.2.2)
      else ([channelID], .error e, rest)

/-- One consumer-visible step of `eventListener.Run` (no cancellation in the
modelled executions): a failed poll emits the error item and resets the
channel id to 0 (after the fixed backoff); a successful poll adopts the
returned channel id and emits every event in order. `fuel` bounds the number
of loop iterations; `runListener` below supplies enough fuel that the loop
only stops when the poll outcomes are exhausted. Returns (channel ids sent,
items emitted). -/
def runListenerAux (fuel : Nat) (channelID : Int)
    (rs : List (Except GoErr EventsResp)) : List Int × List EventItem :=
  match fuel, rs with
  | 0, _ => ([], [])
  | _, [] => ([], [])
  | fuel + 1, _ :: _ =>
    let q := requestEvent channelID rs
    match q.2.1 with
    | .error e =>
      let q' := runListenerAux fuel 0 q.2.2
      (q.1 ++ q'.1, .err e :: q'.2)
    | .ok evs =>
      let q' := runListenerAux fuel evs.channelid q.2.2
      (q.1 ++ q'.1, evs.events.map .ev ++ q'.2)

/-- `eventListener.Run` driven by a finite list of poll outcomes, starting
from channel id 0 as the listener does. -/
def runListener (rs : List (Except GoErr EventsResp)) :
    List Int × List EventItem :=
  runListenerAux rs.length 0 rs

/-! ## Keepalive reference counting (`events.go`) -/

/-- The keepalive bookkeeping of `Client`: the listener reference count
(`eventsCtr`, a Go `int`) and the number of running keepalive tasks (0 or 1
in every reachable state; the stop handshake over `eventsStopCh` is
synchronous, so a task's termination is complete when the stopping call
returns and the count can be updated atomically with the counter, both being
mutated under the client mutex). -/
structure KState where
  eventsCtr : Int
  tasks : Nat
deriving DecidableEq, Repr

/-- `Client.startEventSessionKeepAlive`: under the mutex, increment the
count; on the 0 to 1 transition, spawn the keepalive task. -/
def startEventSessionKeepAlive (s : KState) : KState :=
  let c := s.eventsCtr + 1
  { eventsCtr := c, tasks := if c = 1 then s.tasks + 1 else s.tasks }

/-- `Client.stopEventSessionKeepAlive`: under the mutex, decrement the count;
on reaching 0, signal the task over the rendezvous channel — the task
acknowledges and terminates before the send (and hence this call)
returns. -/
def stopEventSessionKeepAlive (s : KState) : KState :=
  let c := s.eventsCtr - 1
  { eventsCtr := c, tasks := if c = 0 then s.tasks - 1 else s.tasks }

/-- A listener lifecycle operation: a listener start (`Client.Events`) or a
listener teardown (the deferred stop in `eventListener.Run`). -/
inductive KOp where
  | start
  | stop
deriving DecidableEq, Repr

/-- Apply a sequence of lifecycle operations (they serialize on the client
mutex, so any interleaving is a sequence). -/
def applyKOps (s : KState) : List KOp → KState
  | [] => s
  | .start :: t => applyKOps (startEventSessionKeepAlive s) t
  | .stop :: t => applyKOps (stopEventSessionKeepAlive s) t

/-- Well-formedness of an operation sequence starting from count `c`: every
stop is paired with an earlier start (each teardown follows its listener's
start), so the count never goes below 0. -/
def wfKOps : Int → List KOp → Bool
  | _, [] => true
  | c, .start :: t => wfKOps (c + 1) t
  | c, .stop :: t => decide (1 ≤ c) && wfKOps (c - 1) t

/-- The initial keepalive state of a fresh client. -/
def kInit : KState := ⟨0, 0⟩

/-- The decision `Client.Request` takes on a `doRequest` error (the two
`if` lines of its loop): renew-and-retry exactly when no reauthentication was
attempted yet and the error is recognized as permission-denied. -/
def retriesOnError (authAttempted : Bool) (e : GoErr) : Bool :=
  !authAttempted && IsPermissionDeniedError e

/-! ## Helper lemmas -/

/-- The version component of a credentials snapshot is the stored version. -/
theorem getCredentials_version (s : ISession) :
    (GetCredentials s).2.2 = s.version := by
  by_cases h : s.version = 0 <;> simp [GetCredentials, h]

/-- A non-sentinel authorization value: the `X-Sah `-prefixed token never
equals the login sentinel (their sixth characters differ). -/
theorem xsah_ne_login (ctx : String) :
    ("X-Sah " ++ ctx) ≠ authorizationHeaderLogin := by
  intro h
  have h2 : ("X-Sah " ++ ctx).data = authorizationHeaderLogin.data :=
    congrArg String.data h
  rw [String.data_append] at h2
  have h3 := congrArg (fun l => l[5]?) h2
  simp only at h3
  rw [List.getElem?_append] at h3
  simp [authorizationHeaderLogin] at h3

/-- Splitting a list with no occurrence of the separator returns a single
part. -/
theorem goSplitChAux_not_mem (sep : Char) (l acc : List Char)
    (h : sep ∉ l) : goSplitChAux sep l acc = [acc.reverse ++ l] := by
  induction l generalizing acc with
  | nil => simp [goSplitChAux]
  | cons c t ih =>
    have hc : ¬ c = sep := fun hq => h (hq ▸ List.mem_cons_self c t)
    have ht : sep ∉ t := fun hq => h (List.mem_cons_of_mem c hq)
    rw [goSplitChAux, if_neg hc, ih _ ht]
    simp

/-- Splitting the `X-Sah `-prefixed token on a space, when the token itself
contains no space: the sentinel word followed by the token. -/
theorem goSplitCh_xsah (ctx : String) (h : ' ' ∉ ctx.data) :
    goSplitCh ' ' ("X-Sah " ++ ctx).data = ["X-Sah".data, ctx.data] := by
  rw [String.data_append]
  show goSplitChAux ' ' ("X-Sah ".data ++ ctx.data) [] = _
  simp [goSplitChAux, goSplitChAux_not_mem ' ' ctx.data [] h]

/-- `newAuthenticatedRequest` on an initialized session whose token has no
space: the built request carries the Content-Type, the bare token in the
`X-Context` header, and the raw cookie pair in the `Cookie` header — and no
`Authorization` header — together with the session's version. -/
theorem newAuthenticatedRequest_eq (s : ISession) (ct : String)
    (hv : s.version ≠ 0) (hsp : ' ' ∉ s.contextID.data) :
    newAuthenticatedRequest s ct =
      some (⟨[("Content-Type", ct), ("X-Context", s.contextID),
        ("Cookie", s.sessid.name ++ "=" ++ s.sessid.value)]⟩, s.version) := by
  simp only [newAuthenticatedRequest, GetCredentials, if_neg hv, newRequest,
    if_pos (xsah_ne_login s.contextID), goSplitCh_xsah s.contextID hsp]
  simp [headerSet, headerAdd, canonicalKey, canonicalKeyAux]

/-- `authenticate` called with the version just read from the same session
always runs the login exchange (the sequential model's renew condition
holds). -/
theorem authenticate_attempted (s : ISession) (lo : LoginOutcome) :
    (authenticate s (GetCredentials s).2.2 lo).1 = true := by
  simp only [authenticate, if_neg (fun h : (GetCredentials s).2.2 ≠
    (GetCredentials s).2.2 => h rfl)]
  cases lo with
  | fail e => by_cases h : e = .statusError 401 <;> simp [h]
  | success ctx cks =>
    by_cases h : ctx = "" <;> simp [h]
    cases findSessidCookie cks <;> simp

/-- With the attempt flag already set, the loop performs exactly one more
send and returns. -/
theorem requestLoop_attempted_sends (parse : String → Body)
    (decodeOut : String → Option String) (ct payload : String) (s : ISession)
    (renewals : Nat) (sends : List (String × String × String × Nat))
    (logins : List LoginOutcome) (resps : List (Except GoErr HttpResp))
    (tr : ReqTrace)
    (h : requestLoop parse decodeOut ct payload s true renewals sends logins
      resps = some tr) :
    tr.sends.length = sends.length + 1 := by
  cases resps with
  | nil =>
    unfold requestLoop at h
    split at h
    · exact absurd h (by simp)
    · simp only [Option.some.injEq] at h
      subst h
      simp
  | cons r rest =>
    unfold requestLoop at h
    split at h
    · exact absurd h (by simp)
    · split at h <;> simp only [if_true, Option.some.injEq] at h <;>
        (subst h; simp)

/-- From a state whose version matches the one in the built request, the
`authenticate` run inside the loop always sets the attempt flag. -/
theorem authenticate_version_attempted (s : ISession) (lo : LoginOutcome)
    (rv : HttpRequest × Nat) (hna : newAuthenticatedRequest s _ct = some rv) :
    (authenticate s rv.2 lo).1 = true := by
  have hv : rv.2 = (GetCredentials s).2.2 := by
    rcases hnr : newRequest _ct (GetCredentials s).1 with _ | q
    · rw [newAuthenticatedRequest, hnr] at hna
      exact absurd hna (by simp)
    · rw [newAuthenticatedRequest, hnr] at hna
      simp only [Option.map_some', Option.some.injEq] at hna
      rw [← hna]
  rw [hv]
  exact authenticate_attempted s lo

/-- At most two sends happen in any run of the loop started with the attempt
flag clear, for any environment. -/
theorem requestLoop_sends_bound (parse : String → Body)
    (decodeOut : String → Option String) (ct payload : String) (s : ISession)
    (renewals : Nat) (sends : List (String × String × String × Nat))
    (logins : List LoginOutcome) (resps : List (Except GoErr HttpResp))
    (tr : ReqTrace)
    (h : requestLoop parse decodeOut ct payload s false renewals sends logins
      resps = some tr) :
    tr.sends.length ≤ sends.length + 2 := by
  cases resps with
  | nil =>
    unfold requestLoop at h
    split at h
    · exact absurd h (by simp)
    · simp only [Option.some.injEq] at h
      subst h
      simp
  | cons r rest =>
    cases logins with
    | nil =>
      unfold requestLoop at h
      rcases hna : newAuthenticatedRequest s ct with _ | rv
      · rw [hna] at h
        exact absurd h (by simp)
      · rw [hna] at h
        simp only at h
        split at h <;>
          first
          | (simp only [Option.some.injEq] at h; subst h; simp)
          | (rw [if_neg (by simp)] at h
             split at h <;>
               (simp only [Option.some.injEq] at h; subst h; simp))
    | cons lo lrest =>
      unfold requestLoop at h
      rcases hna : newAuthenticatedRequest s ct with _ | rv
      · rw [hna] at h
        exact absurd h (by simp)
      · rw [hna] at h
        simp only at h
        split at h
        · simp only [Option.some.injEq] at h
          subst h
          simp
        · rw [if_neg (by simp)] at h
          split at h
          · split at h
            · simp only [Option.some.injEq] at h
              subst h
              simp
            · have ha := authenticate_version_attempted s lo rv hna
              rw [ha] at h
              have hlen := requestLoop_attempted_sends parse decodeOut ct
                payload _ _ _ lrest rest tr h
              simp only [hlen, List.length_append, List.length_cons,
                List.length_nil]
              omega
          · simp only [Option.some.injEq] at h
            subst h
            simp

/-- `doRequest` never inspects the request it is given: the processing of a
response outcome is the same whatever request produced it (in particular, for
both content types). -/
theorem doRequest_req_irrel (parse : String → Body)
    (decodeOut : String → Option String) (q q' : HttpRequest)
    (r : Except GoErr HttpResp) :
    doRequest parse decodeOut q r = doRequest parse decodeOut q' r := rfl

/-- C1: through the request dispatcher, a first response carrying the
permission-denied error triggers exactly one session renewal and exactly one
resend of the identical marshaled payload; when the resent attempt yields the
permission-denied error again, that error is returned to the caller verbatim;
and no execution of the dispatcher sends the payload more than twice. -/
theorem c1_request_retry_bound
    (parse : String → Body) (decodeOut : String → Option String)
    (ct payload : String) (s0 : ISession) (r1 r2 : Except GoErr HttpResp)
    (rest : List (Except GoErr HttpResp)) (e1 e2 : GoErr) (ctx2 : String)
    (cks : List String) (ck : Cookie) (lrest : List LoginOutcome)
    (hv : s0.version ≠ 0) (hsp : ' ' ∉ s0.contextID.data)
    (hsp2 : ' ' ∉ ctx2.data) (hc2 : ctx2 ≠ "")
    (hr1 : doRequest parse decodeOut ⟨[]⟩ r1 = .error e1)
    (hp1 : IsPermissionDeniedError e1 = true)
    (hr2 : doRequest parse decodeOut ⟨[]⟩ r2 = .error e2)
    (hp2 : IsPermissionDeniedError e2 = true)
    (hck : findSessidCookie cks = some ck) :
    (∀ logins resps tr,
      Request parse decodeOut ct payload s0 logins resps = some tr →
      tr.sends.length ≤ 2) ∧
    Request parse decodeOut ct payload s0 (.success ctx2 cks :: lrest)
        (r1 :: r2 :: rest) =
      some ⟨[(payload, "X-Sah " ++ s0.contextID,
          s0.sessid.name ++ "=" ++ s0.sessid.value, s0.version),
        (payload, "X-Sah " ++ ctx2, ck.name ++ "=" ++ ck.value,
          s0.version + 1)], 1, .error e2⟩ := by
  constructor
  · intro logins resps tr h
    unfold Request at h
    rw [getCredentials_version, if_neg hv] at h
    exact requestLoop_sends_bound parse decodeOut ct payload s0 0 [] logins
      resps tr h
  · have hna0 := newAuthenticatedRequest_eq s0 ct hv hsp
    have hauth : authenticate s0 s0.version (.success ctx2 cks) =
        (true, .ok (), SetCredentials s0 ctx2 ck) := by
      simp only [authenticate, getCredentials_version]
      rw [if_neg (by simp)]
      simp [hc2, hck]
    have hna1 := newAuthenticatedRequest_eq (SetCredentials s0 ctx2 ck) ct
      (by simp [SetCredentials]) (by simpa [SetCredentials] using hsp2)
    have hr1' : ∀ q, doRequest parse decodeOut q r1 = .error e1 := fun q =>
      (doRequest_req_irrel parse decodeOut q ⟨[]⟩ r1).trans hr1
    have hr2' : ∀ q, doRequest parse decodeOut q r2 = .error e2 := fun q =>
      (doRequest_req_irrel parse decodeOut q ⟨[]⟩ r2).trans hr2
    unfold Request
    rw [getCredentials_version, if_neg hv]
    unfold requestLoop
    rw [hna0]
    simp only [hr1', hp1, if_true, if_false, Bool.false_eq_true]
    rw [hauth]
    simp only
    unfold requestLoop
    rw [hna1]
    simp only [hr2', SetCredentials, GetCredentials, if_neg hv]
    simp [GetCredentials, SetCredentials, hv]

/-- C1 witness: a concrete run with two permission-denied responses shows two
sends, one renewal, and the second error returned. -/
theorem c1_request_retry_bound_witness :
    Request (fun _ => Body.multi [⟨13, "", ""⟩]) (fun s => some s)
        ContentTypeWS "payload" ⟨"tok", ⟨"a/sessid", "v"⟩, 3⟩
        [.success "tok2" ["x/sessid=v2"]]
        [.ok ⟨200, [], "e"⟩, .ok ⟨200, [], "e"⟩] =
      some ⟨[("payload", "X-Sah tok", "a/sessid=v", 3),
        ("payload", "X-Sah tok2", "x/sessid=v2", 4)], 1,
        .error (.appErrors [⟨13, "", ""⟩])⟩ := by
  have h := c1_request_retry_bound (fun _ => Body.multi [⟨13, "", ""⟩])
    (fun s => some s) ContentTypeWS "payload" ⟨"tok", ⟨"a/sessid", "v"⟩, 3⟩
    (.ok ⟨200, [], "e"⟩) (.ok ⟨200, [], "e"⟩) [] (.appErrors [⟨13, "", ""⟩])
    (.appErrors [⟨13, "", ""⟩]) "tok2" ["x/sessid=v2"] ⟨"x/sessid", "v2"⟩ []
    (by decide) (by decide) (by decide) (by decide) rfl (by decide)
    rfl (by decide) (by decide)
  exact h.2

/-- C2: if the renew condition is false at lock-acquisition time, `Renew`
returns `false` with no login exchange and no state change; when the login
exchange fails, the session (token, cookie, version) is unchanged and the
failure propagates (a non-401 failure verbatim, a 401 as the invalid-password
error); every error outcome of `Renew` leaves the session unchanged. -/
theorem c2_renew_noop_and_failure (s : LbSession) (rc : LbSession → Bool)
    (ex : LoginOutcome) :
    (rc s = false → Renew s rc ex = (.ok false, s, false)) ∧
    (∀ e, ex = .fail e → e ≠ .statusError 401 → rc s = true →
      Renew s rc ex = (.error e, s, true)) ∧
    (rc s = true → ex = .fail (.statusError 401) →
      Renew s rc ex = (.error .invalidPassword, s, true)) ∧
    (∀ e s' called, Renew s rc ex = (.error e, s', called) → s' = s) := by
  refine ⟨fun h => by simp [Renew, h], fun e he hne hrc => ?_,
    fun hrc he => ?_, fun e s' called h => ?_⟩
  · subst he
    simp [Renew, hrc, hne]
  · subst he
    simp [Renew, hrc]
  · unfold Renew at h
    split at h
    · exact absurd h (by simp)
    · (repeat' split at h) <;> simp_all

/-- C2 witness: a false condition is a no-op, and a failing login leaves a
concrete session untouched while propagating the error. -/
theorem c2_renew_noop_and_failure_witness :
    Renew ⟨"t", some ⟨"n", "v"⟩, 2⟩ (fun s => decide (s.version = 5))
        (.fail (.transport "down")) =
      (.ok false, ⟨"t", some ⟨"n", "v"⟩, 2⟩, false) ∧
    Renew ⟨"t", some ⟨"n", "v"⟩, 2⟩ (fun s => decide (s.version = 2))
        (.fail (.transport "down")) =
      (.error (.transport "down"), ⟨"t", some ⟨"n", "v"⟩, 2⟩, true) := by
  constructor
  · exact (c2_renew_noop_and_failure ⟨"t", some ⟨"n", "v"⟩, 2⟩
      (fun s => decide (s.version = 5)) (.fail (.transport "down"))).1
      (by decide)
  · exact (c2_renew_noop_and_failure ⟨"t", some ⟨"n", "v"⟩, 2⟩
      (fun s => decide (s.version = 2)) (.fail (.transport "down"))).2.1
      (.transport "down") rfl (by decide) (by decide)

/-- C10: `NewAuthenticatedRequest` on a never-renewed session (version 0)
returns the session-not-initialized error and builds no request; on a renewed
session (version > 0, with its stored cookie) it returns the authenticated
request together with the exact current version. -/
theorem c10_new_authenticated_request_guard (s : LbSession) :
    (s.version = 0 →
      NewAuthenticatedRequest s = some (.error .sessionNotInitialized)) ∧
    (∀ ck, s.version ≠ 0 → s.sessid = some ck →
      NewAuthenticatedRequest s = some (.ok
        (headerAdd (newRequestRoot ("X-Sah " ++ s.contextID)) "Cookie"
          (ck.name ++ "=" ++ ck.value), s.version))) := by
  constructor
  · intro h
    simp [NewAuthenticatedRequest, h]
  · intro ck hv hck
    simp [NewAuthenticatedRequest, hv, hck]

/-- C10 witness: version 0 is refused; a renewed concrete session yields the
request and its version. -/
theorem c10_new_authenticated_request_guard_witness :
    NewAuthenticatedRequest ⟨"", none, 0⟩ =
      some (.error .sessionNotInitialized) ∧
    NewAuthenticatedRequest ⟨"tok", some ⟨"a/sessid", "v"⟩, 2⟩ =
      some (.ok (headerAdd (newRequestRoot "X-Sah tok") "Cookie"
        "a/sessid=v", 2)) := by
  constructor
  · exact (c10_new_authenticated_request_guard ⟨"", none, 0⟩).1 rfl
  · exact (c10_new_authenticated_request_guard
      ⟨"tok", some ⟨"a/sessid", "v"⟩, 2⟩).2 ⟨"a/sessid", "v"⟩ (by decide) rfl

/-- A stale-channel poll failure is retried inside `requestEvent` with
channel id 0, invisibly. -/
theorem requestEvent_stale (stale : GoErr)
    (hstale : (IsChannelDoesNotExistError stale ||
      IsFunctionExecutionFailedError stale) = true)
    (channelID : Int) (rest : List (Except GoErr EventsResp)) :
    requestEvent channelID (.error stale :: rest) =
      (channelID :: (requestEvent 0 rest).1, (requestEvent 0 rest).2.1,
        (requestEvent 0 rest).2.2) := by
  simp [requestEvent, hstale]

/-- C3: driven by the poll responses (stale channel, success with channel 5
and event `e1`, transport error, success with channel 5 and event `e2`), the
consumer observes exactly `e1`, the error item for the transport error, and
`e2`, in that order; the stale response emits nothing; the poll after the
transport error sends channel id 0, while the poll after the first success
sends 5 (and the two polls of the transparent resubscription send 0). -/
theorem c3_event_sequencing (e1 e2 : EventData) (msg : String) (stale : GoErr)
    (hstale : (IsChannelDoesNotExistError stale ||
      IsFunctionExecutionFailedError stale) = true) :
    runListener [.error stale, .ok ⟨5, [e1]⟩, .error (.transport msg),
        .ok ⟨5, [e2]⟩] =
      ([0, 0, 5, 0], [.ev e1, .err (.transport msg), .ev e2]) := by
  unfold runListener
  simp only [List.length_cons, List.length_nil]
  rw [show (0 + 1 + 1 + 1 + 1 : Nat) = 4 from rfl]
  unfold runListenerAux
  rw [requestEvent_stale stale hstale 0]
  simp [runListenerAux, requestEvent, IsChannelDoesNotExistError,
    IsFunctionExecutionFailedError, errorMatches]

/-- C3 witness: the concrete scenario with a channel-does-not-exist stale
response. -/
theorem c3_event_sequencing_witness :
    runListener [.error (.appError ⟨196618, "", "channel does not exist"⟩),
        .ok ⟨5, [⟨"h1", "r1", []⟩]⟩, .error (.transport "down"),
        .ok ⟨5, [⟨"h2", "r2", []⟩]⟩] =
      ([0, 0, 5, 0], [.ev ⟨"h1", "r1", []⟩, .err (.transport "down"),
        .ev ⟨"h2", "r2", []⟩]) :=
  c3_event_sequencing ⟨"h1", "r1", []⟩ ⟨"h2", "r2", []⟩ "down"
    (.appError ⟨196618, "", "channel does not exist"⟩) (by decide)

/-- The keepalive invariant: starting from a consistent state, any
well-formed sequence of listener starts and stops keeps the number of
running keepalive tasks equal to 1 exactly when the reference count is at
least 1. -/
theorem kstate_invariant (ops : List KOp) (s : KState)
    (h0 : 0 ≤ s.eventsCtr) (hw : wfKOps s.eventsCtr ops = true)
    (ht : s.tasks = if 1 ≤ s.eventsCtr then 1 else 0) :
    (applyKOps s ops).tasks =
      (if 1 ≤ (applyKOps s ops).eventsCtr then 1 else 0) := by
  induction ops generalizing s with
  | nil => exact ht
  | cons op t ih =>
    cases op with
    | start =>
      show (applyKOps (startEventSessionKeepAlive s) t).tasks = _
      apply ih
      · simp only [startEventSessionKeepAlive]
        omega
      · simpa only [wfKOps, startEventSessionKeepAlive] using hw
      · simp only [startEventSessionKeepAlive]
        by_cases hc : s.eventsCtr + 1 = 1
        · have : ¬ 1 ≤ s.eventsCtr := by omega
          rw [if_pos hc, ht, if_neg this, if_pos (by omega)]
        · have h1 : 1 ≤ s.eventsCtr := by omega
          rw [if_neg hc, ht, if_pos h1, if_pos (by omega)]
    | stop =>
      simp only [wfKOps, Bool.and_eq_true, decide_eq_true_eq] at hw
      show (applyKOps (stopEventSessionKeepAlive s) t).tasks = _
      apply ih
      · simp only [stopEventSessionKeepAlive]
        omega
      · simpa only [wfKOps, stopEventSessionKeepAlive] using hw.2
      · simp only [stopEventSessionKeepAlive]
        by_cases hc : s.eventsCtr - 1 = 0
        · rw [if_pos hc, ht, if_pos hw.1, if_neg (by omega)]
        · rw [if_neg hc, ht, if_pos hw.1, if_pos (by omega)]

/-- C5: for every well-formed interleaving of listener starts and stops
(each stop paired with an earlier start), a keepalive task is running iff
the reference count is at least 1; starting three listeners and stopping two
leaves count 1 with exactly one task; and the stop that brings the count to
0 completes the synchronous handshake — the task is terminated in the state
returned by that very call. -/
theorem c5_keepalive_refcount :
    (∀ ops, wfKOps 0 ops = true →
      (applyKOps kInit ops).tasks =
        (if 1 ≤ (applyKOps kInit ops).eventsCtr then 1 else 0)) ∧
    applyKOps kInit [.start, .start, .start, .stop, .stop] = ⟨1, 1⟩ ∧
    (∀ tasks, stopEventSessionKeepAlive ⟨1, tasks⟩ = ⟨0, tasks - 1⟩) := by
  refine ⟨fun ops hw => kstate_invariant ops kInit (by simp [kInit])
    (by simpa [kInit] using hw) (by simp [kInit]), by decide,
    fun tasks => by simp [stopEventSessionKeepAlive]⟩

/-- C5 witness: the three-starts-two-stops sequence is well-formed and leaves
count 1 with one running task; a final stop terminates the task. -/
theorem c5_keepalive_refcount_witness :
    wfKOps 0 [KOp.start, .start, .start, .stop, .stop] = true ∧
    (applyKOps kInit [KOp.start, .start, .start, .stop, .stop]).tasks =
      (if 1 ≤ (applyKOps kInit
        [KOp.start, .start, .start, .stop, .stop]).eventsCtr then 1
        else 0) ∧
    stopEventSessionKeepAlive ⟨1, 1⟩ = ⟨0, 0⟩ := by
  refine ⟨by decide, c5_keepalive_refcount.1
    [KOp.start, .start, .start, .stop, .stop] (by decide), ?_⟩
  have h := c5_keepalive_refcount.2.2 1
  simpa using h

/-- C4 counterexample: an envelope whose first entry has code 1 and whose
second entry has code 13 is decoded as the aggregate error and recognized as
permission-denied, so the first-attempt retry path is taken although the
first entry's code is not 13 — the decision is not determined by the first
entry alone. -/
theorem c4_first_entry_counterexample :
    handleRequestError (.multi [⟨1, "d", "i"⟩, ⟨13, "d2", "i2"⟩]) =
      some (.appErrors [⟨1, "d", "i"⟩, ⟨13, "d2", "i2"⟩]) ∧
    retriesOnError false (.appErrors [⟨1, "d", "i"⟩, ⟨13, "d2", "i2"⟩]) =
      true ∧
    (⟨1, "d", "i"⟩ : ApiError).errorCode ≠ 13 := by decide

/-- C4 (amended): on a first attempt, the renewal-and-retry decision for a
decoded non-empty error envelope is taken iff SOME entry of the envelope has
code 13 (for the single-object form, iff its code is 13); on an already
retried attempt the retry path is never taken. -/
theorem c4_retry_decision_any_entry (es : List ApiError) (e : ApiError)
    (err err' : GoErr)
    (hm : handleRequestError (.multi es) = some err)
    (hs : handleRequestError (.single e) = some err') :
    (retriesOnError false err = true ↔ ∃ a ∈ es, a.errorCode = 13) ∧
    (retriesOnError false err' = true ↔ e.errorCode = 13) ∧
    (∀ e2, retriesOnError true e2 = false) := by
  refine ⟨?_, ?_, fun e2 => by simp [retriesOnError]⟩
  · simp only [handleRequestError] at hm
    split at hm
    · simp only [Option.some.injEq] at hm
      subst hm
      simp [retriesOnError, IsPermissionDeniedError, errorMatches,
        PermissionDeniedErrorCode, List.any_eq_true]
    · exact absurd hm (by simp)
  · simp only [handleRequestError] at hs
    split at hs
    · simp only [Option.some.injEq] at hs
      subst hs
      simp [retriesOnError, IsPermissionDeniedError, errorMatches,
        PermissionDeniedErrorCode]
    · exact absurd hs (by simp)

/-- C4 witness: a two-entry envelope whose second entry has code 13 triggers
the retry decision. -/
theorem c4_retry_decision_any_entry_witness :
    retriesOnError false (.appErrors [⟨0, "x", "y"⟩, ⟨13, "", ""⟩]) =
      true := by
  have h := c4_retry_decision_any_entry [⟨0, "x", "y"⟩, ⟨13, "", ""⟩]
    ⟨13, "", ""⟩ (.appErrors [⟨0, "x", "y"⟩, ⟨13, "", ""⟩])
    (.appError ⟨13, "", ""⟩) (by decide) (by decide)
  exact h.1.mpr ⟨⟨13, "", ""⟩, by decide, rfl⟩

/-- C8 counterexample: a single-object error body with code 0 but a non-empty
description is treated as an error by the decoder, contradicting the claim
that a zero code always means no error regardless of the other fields. -/
theorem c8_zero_code_counterexample :
    handleRequestError (.single ⟨0, "oops", ""⟩) =
      some (.appError ⟨0, "oops", ""⟩) ∧
    (⟨0, "oops", ""⟩ : ApiError).errorCode = 0 := by decide

/-- C8 (amended): the decoder reports no error for the single-object form
exactly when the code is 0 AND the description AND info fields are both
empty; a body with a non-empty errors array is always treated as an error
(and an empty one is not); a body with no error envelope is no error. -/
theorem c8_zero_code_envelope (e : ApiError) (es : List ApiError) :
    (handleRequestError (.single e) = none ↔
      e.errorCode = 0 ∧ e.description = "" ∧ e.info = "") ∧
    ((handleRequestError (.multi es)).isSome ↔ es ≠ []) ∧
    handleRequestError .clean = none := by
  refine ⟨?_, ?_, rfl⟩
  · by_cases h : e.errorCode ≠ 0 ∨ e.description ≠ "" ∨ e.info ≠ ""
    · simp only [handleRequestError, if_pos h]
      constructor
      · intro hq
        exact absurd hq (by simp)
      · intro hq
        rcases h with h | h | h <;> simp_all
    · push_neg at h
      simp [handleRequestError, h]
  · by_cases h : es = []
    · subst h
      simp [handleRequestError]
    · have : es.length > 0 := List.length_pos.mpr h
      simp [handleRequestError, this, h]

/-- C9: response bodies ending in the literal `null` have that suffix
stripped once before error-envelope inspection and payload decoding — the
whole processing of a status-200 response with body `x ++ "null"` equals the
processing of the same response with body `x` — while bodies not ending in
`null` are processed unchanged; the processing is the same whatever request
(of either content type) produced the response. -/
theorem c9_trailing_null_stripped (parse : String → Body)
    (decodeOut : String → Option String) (q1 q2 : HttpRequest)
    (cs : List String) (x : String)
    (hx : "null".data.isSuffixOf x.data = false) :
    doRequest parse decodeOut q1 (.ok ⟨200, cs, ⟨x.data ++ "null".data⟩⟩) =
      doRequest parse decodeOut q2 (.ok ⟨200, cs, x⟩) ∧
    goTrimSuffix (x.data ++ "null".data) "null".data = x.data ∧
    goTrimSuffix x.data "null".data = x.data := by
  have h1 : goTrimSuffix (x.data ++ "null".data) "null".data = x.data := by
    unfold goTrimSuffix
    rw [if_pos (by simp [List.isSuffixOf])]
    simp
  have h2 : goTrimSuffix x.data "null".data = x.data := by
    unfold goTrimSuffix
    rw [if_neg (by simp [hx])]
  refine ⟨?_, h1, h2⟩
  unfold doRequest
  simp only [h1, h2]

/-- C9 witness: a concrete body with the artifact decodes like the clean
body. -/
theorem c9_trailing_null_stripped_witness :
    doRequest (fun _ => Body.clean) (fun s => some s) ⟨[]⟩
        (.ok ⟨200, [], "respnull"⟩) =
      doRequest (fun _ => Body.clean) (fun s => some s) ⟨[]⟩
        (.ok ⟨200, [], "resp"⟩) ∧
    goTrimSuffix "respnull".data "null".data = "resp".data := by
  have h := c9_trailing_null_stripped (fun _ => Body.clean) (fun s => some s)
    ⟨[]⟩ ⟨[]⟩ [] "resp" (by decide)
  exact ⟨h.1, h.2.1⟩

/-- When no `Set-Cookie` value contains `"/sessid"`, the patch loop leaves
the headers untouched. -/
theorem patchSetCookieHeaders_id (hs : List String)
    (h : ∀ x ∈ hs, goContains x.data sessidCookieNameSuffix.data = false) :
    patchSetCookieHeaders hs = hs := by
  induction hs with
  | nil => rfl
  | cons a t ih =>
    rw [patchSetCookieHeaders,
      if_neg (by simp [h a (List.mem_cons_self a t)]),
      ih (fun x hx => h x (List.mem_cons_of_mem a hx))]

/-- When no parsed cookie's name ends with the placeholder, the search loop
finds nothing. -/
theorem findPatchedCookie_none (cks : List Cookie)
    (h : ∀ ck ∈ cks,
      patchedSessidCookieNameSuffix.data.isSuffixOf ck.name.data = false) :
    findPatchedCookie cks = none := by
  induction cks with
  | nil => rfl
  | cons a t ih =>
    rw [findPatchedCookie,
      if_neg (by simp [h a (List.mem_cons_self a t)])]
    exact ih (fun x hx => h x (List.mem_cons_of_mem a hx))

/-- C6 counterexample: a `Set-Cookie` header that contains no `/sessid`
substring at all, but whose cookie name natively ends with the `_sessid`
placeholder, is still returned by the extraction (with its name rewritten),
so the absence of `/sessid` does not imply the missing-sessid-cookie
error. -/
theorem c6_absence_counterexample :
    goContains "abc_sessid=v".data sessidCookieNameSuffix.data = false ∧
    findSessidCookie ["abc_sessid=v"] = some ⟨"abc/sessid", "v"⟩ := by decide

/-- C6 (amended): the raw `Set-Cookie` value
`TestCookie/sessid=value123; Path=/` round-trips to a cookie named exactly
`TestCookie/sessid` with value exactly `value123`; and extraction reports the
missing-sessid-cookie outcome whenever no header value contains the
`/sessid` substring AND no parsed cookie's name ends with the `_sessid`
placeholder (the second condition is needed: a native `_sessid`-suffixed
cookie name would be returned with its suffix rewritten to `/sessid`). -/
theorem c6_cookie_roundtrip_and_absence :
    findSessidCookie ["TestCookie/sessid=value123; Path=/"] =
      some ⟨"TestCookie/sessid", "value123"⟩ ∧
    (∀ headers,
      (∀ x ∈ headers,
        goContains x.data sessidCookieNameSuffix.data = false) →
      (∀ ck ∈ readSetCookies headers,
        patchedSessidCookieNameSuffix.data.isSuffixOf ck.name.data =
          false) →
      findSessidCookie headers = none) := by
  constructor
  · decide
  · intro headers h1 h2
    unfold findSessidCookie
    rw [patchSetCookieHeaders_id headers h1]
    exact findPatchedCookie_none _ h2

/-- C6 witness: a header set with no sessid-like cookie at all yields the
missing-cookie outcome. -/
theorem c6_cookie_roundtrip_and_absence_witness :
    findSessidCookie ["foo=bar; Path=/"] = none :=
  c6_cookie_roundtrip_and_absence.2 ["foo=bar; Path=/"] (by decide)
    (by decide)

/-- C7 counterexample: the authenticated request built from a concrete
initialized snapshot carries the bare token in the `X-Context` header and no
`Authorization` header at all, refuting the claim that it carries an
authorization header with the sentinel-prefixed token. -/
theorem c7_no_authorization_header_counterexample :
    newAuthenticatedRequest ⟨"tok", ⟨"TestCookie/sessid", "value123"⟩, 1⟩
        ContentTypeWS =
      some (⟨[("Content-Type", ContentTypeWS), ("X-Context", "tok"),
        ("Cookie", "TestCookie/sessid=value123")]⟩, 1) ∧
    headerGet ⟨[("Content-Type", ContentTypeWS), ("X-Context", "tok"),
      ("Cookie", "TestCookie/sessid=value123")]⟩ "Authorization" =
      none := by decide

/-- C7 (amended): every non-login authenticated request built from an
initialized credentials snapshot (token without spaces) carries the bare
session token in the `X-Context` header — not an authorization header, which
is absent — and a raw `Cookie` header assembled as `name=value` from the
stored sessid cookie, bypassing cookie-jar handling; the snapshot's version
is returned alongside. -/
theorem c7_authenticated_request_headers (s : ISession) (ct : String)
    (hv : s.version ≠ 0) (hsp : ' ' ∉ s.contextID.data) :
    newAuthenticatedRequest s ct =
      some (⟨[("Content-Type", ct), ("X-Context", s.contextID),
        ("Cookie", s.sessid.name ++ "=" ++ s.sessid.value)]⟩, s.version) ∧
    headerGet ⟨[("Content-Type", ct), ("X-Context", s.contextID),
      ("Cookie", s.sessid.name ++ "=" ++ s.sessid.value)]⟩ "Authorization" =
      none ∧
    headerGet ⟨[("Content-Type", ct), ("X-Context", s.contextID),
      ("Cookie", s.sessid.name ++ "=" ++ s.sessid.value)]⟩ "x-context" =
      some s.contextID ∧
    headerGet ⟨[("Content-Type", ct), ("X-Context", s.contextID),
      ("Cookie", s.sessid.name ++ "=" ++ s.sessid.value)]⟩ "Cookie" =
      some (s.sessid.name ++ "=" ++ s.sessid.value) := by
  refine ⟨newAuthenticatedRequest_eq s ct hv hsp, ?_, ?_, ?_⟩ <;>
    simp [headerGet, canonicalKey, canonicalKeyAux, List.find?]

/-- C7 witness: the amended header layout at a concrete initialized
session. -/
theorem c7_authenticated_request_headers_witness :
    newAuthenticatedRequest ⟨"abc", ⟨"x/sessid", "z"⟩, 2⟩ ContentTypeEvent =
      some (⟨[("Content-Type", ContentTypeEvent), ("X-Context", "abc"),
        ("Cookie", "x/sessid=z")]⟩, 2) :=
  (c7_authenticated_request_headers ⟨"abc", ⟨"x/sessid", "z"⟩, 2⟩
    ContentTypeEvent (by decide) (by decide)).1
